import Mathlib

/-!
Verification of `benchmark/scenarios/read_request_load.py` and
`flocker/provision/_ca.py` (flocker repository).

Shallow embedding conventions:
* The reactor clock is passed explicitly: a Python call `m.new_sample()`
  reading `int(self.reactor.seconds())` becomes `m.new_sample now` with
  `now : Int` the whole-second clock value at the call.
* Python `float` results are modelled as `Option ℚ`: `float('nan')` is
  `none`; a finite value `x` is `some x` (float rounding is not modelled;
  the claims concern the arithmetic mean and the NaN marker).
* A Deferred's settlement is `Except ε α`: `Except.ok` for the callback
  path, `Except.error` for the errback path.
-/

/-! ## RateMeasurer (read_request_load.py) -/

/-- `DEFAULT_SAMPLE_SIZE = 5`. -/
def DEFAULT_SAMPLE_SIZE : Nat := 5

/-- State of `RateMeasurer`: `counts`, `count`, `sample_size`, `last_second`.
The `reactor` attribute is replaced by passing clock readings explicitly. -/
structure RateMeasurer where
  counts : List Nat
  count : Nat
  sample_size : Nat
  last_second : Int
deriving DecidableEq, Repr

/-- Python slice `xs[-k:]`: for `k = 0` the start index `-0 == 0` selects the
whole list; for `k ≥ 1` it selects the last `min k (length xs)` elements. -/
def pyLastSlice (k : Nat) (xs : List α) : List α :=
  if k = 0 then xs else xs.drop (xs.length - k)

/-- `RateMeasurer.__init__`: empty window, zero accumulator,
`last_second = int(self.reactor.seconds())` at construction time. -/
def RateMeasurer.init (now0 : Int) (sample_size : Nat) : RateMeasurer :=
  { counts := [], count := 0, sample_size := sample_size, last_second := now0 }

/-- `RateMeasurer.new_sample`: if `now > last_second`, append `count` to
`counts`, truncate `counts` to `counts[-sample_size:]`, advance `last_second`
and reset `count`; in every case then increment `count` by one. -/
def RateMeasurer.new_sample (m : RateMeasurer) (now : Int) : RateMeasurer :=
  let m' :=
    if m.last_second < now then
      { m with counts := pyLastSlice m.sample_size (m.counts ++ [m.count]),
               last_second := now, count := 0 }
    else m
  { m' with count := m'.count + 1 }

/-- `RateMeasurer.rate`: the mean `sum(counts) / float(len(counts))` when
`len(counts) == sample_size`, else `float('nan')` (modelled `none`). -/
def RateMeasurer.rate (m : RateMeasurer) : Option ℚ :=
  if m.counts.length = m.sample_size then
    some ((m.counts.sum : ℚ) / (m.counts.length : ℚ))
  else none

/-- A sequence of `new_sample()` calls at the given clock readings. -/
def runMeasurer (m : RateMeasurer) (ts : List Int) : RateMeasurer :=
  ts.foldl RateMeasurer.new_sample m

lemma pyLastSlice_length_le (k : Nat) (xs : List α) (hk : k ≠ 0) :
    (pyLastSlice k xs).length ≤ k := by
  simp only [pyLastSlice, if_neg hk, List.length_drop]
  omega

lemma pyLastSlice_length_le_self (k : Nat) (xs : List α) :
    (pyLastSlice k xs).length ≤ xs.length := by
  by_cases hk : k = 0
  · simp [pyLastSlice, hk]
  · simp only [pyLastSlice, if_neg hk, List.length_drop]
    omega

lemma new_sample_sample_size (m : RateMeasurer) (now : Int) :
    (m.new_sample now).sample_size = m.sample_size := by
  unfold RateMeasurer.new_sample
  by_cases h : m.last_second < now <;> simp [h]

lemma new_sample_counts_le (m : RateMeasurer) (now : Int)
    (hsz : 1 ≤ m.sample_size) (hinv : m.counts.length ≤ m.sample_size) :
    (m.new_sample now).counts.length ≤ m.sample_size := by
  unfold RateMeasurer.new_sample
  by_cases h : m.last_second < now
  · simpa [h] using pyLastSlice_length_le m.sample_size (m.counts ++ [m.count]) (by omega)
  · simpa [h] using hinv

lemma new_sample_of_lt (m : RateMeasurer) (now : Int) (h : m.last_second < now) :
    m.new_sample now =
      { counts := pyLastSlice m.sample_size (m.counts ++ [m.count]),
        count := 1, sample_size := m.sample_size, last_second := now } := by
  unfold RateMeasurer.new_sample
  simp [h]

lemma new_sample_of_not_lt (m : RateMeasurer) (now : Int) (h : ¬ m.last_second < now) :
    m.new_sample now = { m with count := m.count + 1 } := by
  unfold RateMeasurer.new_sample
  simp [h]

lemma runMeasurer_sample_size (ts : List Int) :
    ∀ m : RateMeasurer, (runMeasurer m ts).sample_size = m.sample_size := by
  induction ts with
  | nil => intro m; rfl
  | cons t rest ih =>
    intro m
    simpa [runMeasurer, new_sample_sample_size] using ih (m.new_sample t)

/-- Each `new_sample` call grows the window by at most one entry, and only at a
clock value strictly above `last_second`, which then becomes the new
`last_second`; hence the window never holds more entries than there are
distinct clock values among the calls. -/
lemma runMeasurer_counts_le_distinct (ts : List Int) :
    ∀ m : RateMeasurer,
      (runMeasurer m ts).counts.length ≤
        m.counts.length + (ts.toFinset.filter (fun t => m.last_second < t)).card := by
  induction ts with
  | nil => intro m; simp [runMeasurer]
  | cons t rest ih =>
    intro m
    by_cases h : m.last_second < t
    · have hstep := new_sample_of_lt m t h
      have hlen : (m.new_sample t).counts.length ≤ m.counts.length + 1 := by
        rw [hstep]
        simpa using pyLastSlice_length_le_self m.sample_size (m.counts ++ [m.count])
      have hlast : (m.new_sample t).last_second = t := by rw [hstep]
      have hrec := ih (m.new_sample t)
      rw [hlast] at hrec
      have hsub : insert t (rest.toFinset.filter (fun x => t < x)) ⊆
          ((t :: rest).toFinset.filter (fun x => m.last_second < x)) := by
        intro x hx
        rcases Finset.mem_insert.mp hx with hx | hx
        · subst hx
          exact Finset.mem_filter.mpr ⟨by simp, h⟩
        · rcases Finset.mem_filter.mp hx with ⟨hx1, hx2⟩
          exact Finset.mem_filter.mpr ⟨by simp [List.mem_toFinset.mp hx1], lt_trans h hx2⟩
      have hnotmem : t ∉ rest.toFinset.filter (fun x => t < x) := by
        intro hmem
        exact absurd (Finset.mem_filter.mp hmem).2 (lt_irrefl t)
      have hcard : (rest.toFinset.filter (fun x => t < x)).card + 1 ≤
          ((t :: rest).toFinset.filter (fun x => m.last_second < x)).card := by
        have := Finset.card_le_card hsub
        rwa [Finset.card_insert_of_not_mem hnotmem] at this
      calc (runMeasurer m (t :: rest)).counts.length
          = (runMeasurer (m.new_sample t) rest).counts.length := rfl
        _ ≤ (m.new_sample t).counts.length +
              (rest.toFinset.filter (fun x => t < x)).card := hrec
        _ ≤ m.counts.length + 1 + (rest.toFinset.filter (fun x => t < x)).card := by omega
        _ ≤ m.counts.length +
              ((t :: rest).toFinset.filter (fun x => m.last_second < x)).card := by omega
    · have hstep := new_sample_of_not_lt m t h
      have hrec := ih (m.new_sample t)
      have hc : (m.new_sample t).counts = m.counts := by rw [hstep]
      have hl : (m.new_sample t).last_second = m.last_second := by rw [hstep]
      rw [hc, hl] at hrec
      have hsub : (rest.toFinset.filter (fun x => m.last_second < x)) ⊆
          ((t :: rest).toFinset.filter (fun x => m.last_second < x)) := by
        intro x hx
        rcases Finset.mem_filter.mp hx with ⟨hx1, hx2⟩
        exact Finset.mem_filter.mpr ⟨by simp [List.mem_toFinset.mp hx1], hx2⟩
      have := Finset.card_le_card hsub
      calc (runMeasurer m (t :: rest)).counts.length
          = (runMeasurer (m.new_sample t) rest).counts.length := rfl
        _ ≤ m.counts.length + (rest.toFinset.filter (fun x => m.last_second < x)).card := hrec
        _ ≤ m.counts.length +
              ((t :: rest).toFinset.filter (fun x => m.last_second < x)).card := by omega

lemma runMeasurer_invariant (ts : List Int) :
    ∀ m : RateMeasurer, 1 ≤ m.sample_size → m.counts.length ≤ m.sample_size →
      (runMeasurer m ts).sample_size = m.sample_size ∧
      (runMeasurer m ts).counts.length ≤ m.sample_size := by
  induction ts with
  | nil => intro m _ hinv; exact ⟨rfl, hinv⟩
  | cons t rest ih =>
    intro m hsz hinv
    have hsz' : 1 ≤ (m.new_sample t).sample_size := by
      rw [new_sample_sample_size]; exact hsz
    have hinv' : (m.new_sample t).counts.length ≤ (m.new_sample t).sample_size := by
      rw [new_sample_sample_size]; exact new_sample_counts_le m t hsz hinv
    have h := ih (m.new_sample t) hsz' hinv'
    rw [new_sample_sample_size] at h
    simpa [runMeasurer] using h

/-! ## Claims C1 - C3 -/

/-- Claim C1: `rate()` is a pure query (in this embedding `RateMeasurer.rate`
is a function of the state and returns no new state, mirroring the method
body, which only reads `counts` and `sample_size`); it returns the
arithmetic mean of `counts` if and only if `counts` holds exactly
`sample_size` entries, and whenever `recordSample()` calls span fewer than
`sample_size` distinct seconds it returns the NaN marker (`none`). -/
theorem c1_rate_mean_iff_window_full (sz : Nat) (_hsz : 0 < sz) :
    (∀ m : RateMeasurer, m.sample_size = sz →
      ((∃ r, m.rate = some r) ↔ m.counts.length = sz)) ∧
    (∀ m : RateMeasurer, m.sample_size = sz → m.counts.length = sz →
      m.rate = some ((m.counts.sum : ℚ) / (m.counts.length : ℚ))) ∧
    (∀ (now0 : Int) (ts : List Int), ts.toFinset.card < sz →
      (runMeasurer (RateMeasurer.init now0 sz) ts).rate = none) := by
  refine ⟨?_, ?_, ?_⟩
  · intro m hm
    constructor
    · rintro ⟨r, hr⟩
      by_contra hne
      rw [RateMeasurer.rate, hm, if_neg hne] at hr
      exact Option.noConfusion hr
    · intro hlen
      exact ⟨_, by rw [RateMeasurer.rate, hm, if_pos hlen]⟩
  · intro m hm hlen
    rw [RateMeasurer.rate, hm, if_pos hlen]
  · intro now0 ts hts
    have hlen := runMeasurer_counts_le_distinct ts (RateMeasurer.init now0 sz)
    have hlast : (RateMeasurer.init now0 sz).last_second = now0 := rfl
    have hcounts0 : (RateMeasurer.init now0 sz).counts.length = 0 := rfl
    have hszeq : (RateMeasurer.init now0 sz).sample_size = sz := rfl
    rw [hlast, hcounts0] at hlen
    have hcard : (ts.toFinset.filter (fun t => now0 < t)).card ≤ ts.toFinset.card :=
      Finset.card_filter_le _ _
    have hsz' := runMeasurer_sample_size ts (RateMeasurer.init now0 sz)
    rw [RateMeasurer.rate, if_neg]
    rw [hsz', hszeq]
    omega

/-- Witness for C1 at concrete inputs: a full window of size 1 yields a
defined rate, and three calls spanning two distinct seconds with
`sample_size = 3` yield NaN. -/
theorem c1_rate_mean_iff_window_full_witness :
    (∃ r, RateMeasurer.rate ⟨[4], 0, 1, 0⟩ = some r) ∧
    (runMeasurer (RateMeasurer.init 0 3) [1, 1, 2]).rate = none := by
  constructor
  · exact ((c1_rate_mean_iff_window_full 1 (by decide)).1 ⟨[4], 0, 1, 0⟩ rfl).mpr rfl
  · exact (c1_rate_mean_iff_window_full 3 (by decide)).2.2 0 [1, 1, 2] (by decide)

/-- Claim C2: One `new_sample` call at clock value `now` (with the monotonic
clock of the spec, so `last_second ≤ now`): if `now` differs from
`last_second` the prior second's accumulated `count` is appended to
`counts`, `counts` is truncated to its last `sample_size` entries,
`last_second` becomes `now` and the accumulator is reset, then incremented
(so it ends at `1`); if `now` equals `last_second` only the accumulator is
incremented, so samples within one second coalesce and a second's bucket is
flushed only by a later call in a different second. -/
theorem c2_new_sample_rollover_then_increment (m : RateMeasurer) (now : Int)
    (hmono : m.last_second ≤ now) :
    (now ≠ m.last_second →
      m.new_sample now =
        { counts := pyLastSlice m.sample_size (m.counts ++ [m.count]),
          count := 1, sample_size := m.sample_size, last_second := now }) ∧
    (now = m.last_second → m.new_sample now = { m with count := m.count + 1 }) := by
  constructor
  · intro hne
    exact new_sample_of_lt m now (lt_of_le_of_ne hmono (fun h => hne h.symm))
  · intro heq
    exact new_sample_of_not_lt m now (by omega)

/-- Witness for C2: a rollover call in a new second, and a coalescing call
in the same second. -/
theorem c2_new_sample_rollover_then_increment_witness :
    RateMeasurer.new_sample ⟨[7], 3, 5, 10⟩ 11 = ⟨[7, 3], 1, 5, 11⟩ ∧
    RateMeasurer.new_sample ⟨[7], 3, 5, 10⟩ 10 = ⟨[7], 4, 5, 10⟩ := by
  constructor
  · have h := (c2_new_sample_rollover_then_increment ⟨[7], 3, 5, 10⟩ 11 (by decide)).1
      (by decide)
    rw [h]; decide
  · exact (c2_new_sample_rollover_then_increment ⟨[7], 3, 5, 10⟩ 10 (by decide)).2 rfl

/-- Claim C3: For a measurer constructed with `sample_size = sz ≥ 1`, after any
sequence of `new_sample()` calls at arbitrary clock values, `counts` holds
at most `sz` entries. -/
theorem c3_window_never_exceeds_sample_size (sz : Nat) (hsz : 1 ≤ sz)
    (now0 : Int) (ts : List Int) :
    (runMeasurer (RateMeasurer.init now0 sz) ts).counts.length ≤ sz := by
  have h := runMeasurer_invariant ts (RateMeasurer.init now0 sz) hsz (by simp [RateMeasurer.init])
  exact h.2

/-- Witness for C3: five calls over three seconds with a window of size 2. -/
theorem c3_window_never_exceeds_sample_size_witness :
    (runMeasurer (RateMeasurer.init 0 2) [1, 1, 2, 3, 3]).counts.length ≤ 2 :=
  c3_window_never_exceeds_sample_size 2 (by decide) 0 [1, 1, 2, 3, 3]

/-! ## Deferred callbacks: `_sample_and_return` / `_request_and_measure` (C4)

`ReadRequestLoadScenario._request_and_measure` builds
`d = self.control_service.list_nodes()` and attaches
`d.addCallback(self._sample_and_return)`.  `addCallback` runs its function
only on the success (callback) path; an errback result flows through
unchanged. -/

/-- Twisted `d.addCallback(f)` on a settled result, for a callback `f` that
also touches scenario state `σ`: run `f` on a success, pass a failure
through untouched. -/
def pyAddCallback {σ α β ε : Type} (f : σ → α → σ × β) (s : σ) :
    Except ε α → σ × Except ε β
  | Except.ok a => ((f s a).1, Except.ok (f s a).2)
  | Except.error e => (s, Except.error e)

/-- `_sample_and_return(result)`: record one sample on the measurer at the
current clock value, then return `result` unchanged. -/
def sample_and_return {α : Type} (now : Int) (m : RateMeasurer) (result : α) :
    RateMeasurer × α :=
  (m.new_sample now, result)

/-- `_request_and_measure()` applied to the settlement of `list_nodes()`:
the result deferred with `_sample_and_return` attached via `addCallback`. -/
def request_and_measure {ε α : Type} (now : Int) (m : RateMeasurer)
    (result : Except ε α) : RateMeasurer × Except ε α :=
  pyAddCallback (sample_and_return now) m result

/-- Claim C4, counterexample: A failure settlement records no sample: the
measurer is returned untouched (while recording a sample would have changed
its `count`), and the failure propagates on the returned deferred.  This
refutes "whether it settles with success or with failure, the scenario
records exactly one sample". -/
theorem c4_failure_records_no_sample_counterexample :
    request_and_measure 1 (RateMeasurer.init 0 5) (Except.error () : Except Unit Unit)
      = (RateMeasurer.init 0 5, Except.error ()) ∧
    ((RateMeasurer.init 0 5).new_sample 1).count ≠ (RateMeasurer.init 0 5).count := by
  constructor
  · rfl
  · decide

/-- Claim C4, amended: On a success settlement the scenario records exactly one
sample (the measurer advances by one `new_sample` call) and the result is
passed through; on a failure settlement no sample is recorded and the
failure propagates unchanged out of `_request_and_measure`. -/
theorem c4_sample_on_success_only {ε α : Type} (now : Int) (m : RateMeasurer)
    (a : α) (e : ε) :
    request_and_measure now m (Except.ok a : Except ε α)
        = (m.new_sample now, Except.ok a) ∧
    request_and_measure now m (Except.error e : Except ε α)
        = (m, Except.error e) := by
  exact ⟨rfl, rfl⟩

/-! ## Scenario errors and the timeout errback (C5) -/

/-- The failures that can settle the scenario's deferreds.
`cancelled` is `twisted...CancelledError`; `requestRateNotReached` and
`rateTooLow` are the two scenario exceptions; `rateTooLow` carries the
observed rate, as `RequestRateTooLow(self.rate_measurer.rate())` does. -/
inductive ScenarioError where
  | cancelled
  | requestRateNotReached
  | rateTooLow (observed : Option ℚ)
deriving DecidableEq, Repr

/-- `handle_timeout(failure)`: `failure.trap(CancelledError)` re-raises any
failure that is not a `CancelledError`; when it is one, `raise
RequestRateNotReached` replaces it. -/
def handle_timeout (e : ScenarioError) : ScenarioError :=
  match e with
  | ScenarioError.cancelled => ScenarioError.requestRateNotReached
  | e => e

/-- Twisted `d.addErrback(h)` on a settled result, for an errback `h` that
always raises: a success passes through, a failure is replaced by `h`'s. -/
def pyAddErrback (h : ScenarioError → ScenarioError) :
    Except ScenarioError Unit → Except ScenarioError Unit
  | Except.ok a => Except.ok a
  | Except.error e => Except.error (h e)

/-- Modelled from the spec: `timeout(reactor, d, self.timeout)` and
`loop_until` live in `flocker.common`, which is not under `src/`.  Per the
spec, when the target rate is not reached within `timeout` seconds the
timeout cancels `waiting_for_target_rate`, and cancelling that pending
deferred fails it with `CancelledError`. -/
def timed_out_wait : Except ScenarioError Unit :=
  Except.error ScenarioError.cancelled

/-- The value `start()` returns on the timeout path:
`waiting_for_target_rate` with `handle_timeout` attached via `addErrback`. -/
def start_result_on_timeout : Except ScenarioError Unit :=
  pyAddErrback handle_timeout timed_out_wait

/-- Claim C5: When the target rate is not reached before the timeout, the
deferred returned by `start()` fails with `RequestRateNotReached`, and never
with the underlying generic `CancelledError`. -/
theorem c5_timeout_yields_rate_not_reached :
    start_result_on_timeout = Except.error ScenarioError.requestRateNotReached ∧
    start_result_on_timeout ≠ Except.error ScenarioError.cancelled := by
  constructor
  · rfl
  · intro h
    rw [show start_result_on_timeout
        = Except.error ScenarioError.requestRateNotReached from rfl] at h
    injection h with h2
    exact ScenarioError.noConfusion h2

/-! ## Polling predicates `reached_target_rate` / `scenario_collapsed` (C9) -/

/-- Python float `x >= y` where `x` may be NaN: any comparison with NaN is
false. -/
def pyFloatGe (x : Option ℚ) (y : ℚ) : Bool :=
  match x with
  | none => false
  | some v => decide (y ≤ v)

/-- Python float `x < y` where `x` may be NaN: any comparison with NaN is
false. -/
def pyFloatLt (x : Option ℚ) (y : ℚ) : Bool :=
  match x with
  | none => false
  | some v => decide (v < y)

/-- `reached_target_rate()`: `self.rate_measurer.rate() >= self.request_rate`,
on the current rate. -/
def reached_target_rate (current_rate : Option ℚ) (request_rate : ℚ) : Bool :=
  pyFloatGe current_rate request_rate

/-- `scenario_collapsed()`: `self.rate_measurer.rate() < self.request_rate`,
on the current rate. -/
def scenario_collapsed (current_rate : Option ℚ) (request_rate : ℚ) : Bool :=
  pyFloatLt current_rate request_rate

/-- Claim C9: when `rate()` equals the target exactly, the rate-reached
predicate polled by `start()` is true (the comparison is `>=`) and the
collapse predicate polled by the monitor is false (the comparison is strict
`<`), so a rate exactly at target counts as reached, never as a collapse. -/
theorem c9_exact_target_is_reached_not_collapse (m : RateMeasurer) (t : ℚ)
    (h : m.rate = some t) :
    reached_target_rate m.rate t = true ∧ scenario_collapsed m.rate t = false := by
  rw [h]
  simp [reached_target_rate, scenario_collapsed, pyFloatGe, pyFloatLt]

/-- Witness for C9: a full window `[3, 3]` of size 2 gives rate exactly 3. -/
theorem c9_exact_target_is_reached_not_collapse_witness :
    reached_target_rate (RateMeasurer.rate ⟨[3, 3], 0, 2, 0⟩) 3 = true ∧
    scenario_collapsed (RateMeasurer.rate ⟨[3, 3], 0, 2, 0⟩) 3 = false :=
  c9_exact_target_is_reached_not_collapse ⟨[3, 3], 0, 2, 0⟩ 3
    (by simp [RateMeasurer.rate]; norm_num)

/-! ## LoadGenerator (C8) -/

/-- One `LoopingCall`, retaining the interval passed to `loop.start`, at
which it fires repeatedly. -/
structure LoopingCall where
  interval : Nat
deriving DecidableEq, Repr

/-- `LoadGenerator` state: `req_per_sec`, `interval`, and the `_loops` list.
The `request_generator` callable and the `_starts` deferreds play no role in
the counting claim and are omitted. -/
structure LoadGenerator where
  req_per_sec : Nat
  interval : Nat
  loops : List LoopingCall
deriving DecidableEq, Repr

/-- `LoadGenerator.__init__`: no loops yet. -/
def LoadGenerator.init (req_per_sec interval : Nat) : LoadGenerator :=
  { req_per_sec := req_per_sec, interval := interval, loops := [] }

/-- `LoadGenerator.start`: `for i in range(self.req_per_sec * self.interval)`
append a `LoopingCall` and start it with `interval=self.interval`. -/
def LoadGenerator.start (g : LoadGenerator) : LoadGenerator :=
  let new_loops := (List.range (g.req_per_sec * g.interval)).map
    (fun _ => ({ interval := g.interval } : LoopingCall))
  { g with loops := g.loops ++ new_loops }

lemma range_map_const {β : Type} (n : Nat) (c : β) :
    (List.range n).map (fun _ => c) = List.replicate n c := by
  induction n with
  | zero => rfl
  | succ k ih =>
    rw [List.range_succ, List.map_append, ih]
    simp [List.replicate_succ']

/-- Claim C8: `LoadGenerator.start()` creates exactly
`req_per_sec * interval` periodic timers, each firing once per `interval`
seconds; in particular for `req_per_sec = 2`, `interval = 1` it creates
exactly 2 timers each ticking once per second. -/
theorem c8_load_generator_timer_count (rps iv : Nat) :
    ((LoadGenerator.init rps iv).start).loops
        = List.replicate (rps * iv) { interval := iv } ∧
    ((LoadGenerator.init 2 1).start).loops.length = 2 ∧
    ((LoadGenerator.init 2 1).start).loops.all (fun l => l.interval == 1) = true := by
  refine ⟨?_, by decide, by decide⟩
  simp [LoadGenerator.init, LoadGenerator.start, range_map_const]

/-! ## Scenario lifecycle: the monitor and `maintained()` (C6, C7)

`start()` builds the `LoadGenerator` and starts its loops; when
`waiting_for_target_rate` fires, `monitor_scenario_status` launches
`loop_until(scenario_collapsed)`; that monitor deferred is stored nowhere.
`stop()` is `self.load_generator.stop()`, which stops only the loops in
`LoadGenerator._loops`.  `maintained()` returns `self._maintained`, the one
Deferred created in `__init__`; the only place that resolves it is the
monitor's callback, via `errback(RequestRateTooLow(rate))`. -/

/-- Scenario state after `start()` has been called: whether the
`LoadGenerator` loops and the collapse-monitor poll are active, and the
settlement of the `_maintained` deferred (`none` = still pending). -/
structure ScenarioState where
  load_running : Bool
  monitor_running : Bool
  maintained : Option (Except ScenarioError Unit)

/-- `Deferred.errback` on `_maintained`: settle a pending deferred with the
failure; on an already-settled deferred Python raises `AlreadyCalledError`
and the stored result stays what it was. -/
def deferredErrback (d : Option (Except ScenarioError Unit)) (e : ScenarioError) :
    Option (Except ScenarioError Unit) :=
  match d with
  | none => some (Except.error e)
  | some r => some r

/-- Events after `start()`: `establish` is `waiting_for_target_rate` firing
(running `monitor_scenario_status`, which launches the collapse monitor);
`stopScenario` is `stop()` (i.e. `load_generator.stop()`); `monitorPoll r`
is one iteration of the monitor's `loop_until(scenario_collapsed)` poll with
`rate_measurer.rate()` reading `r`. -/
inductive ScenarioEvent where
  | establish
  | stopScenario
  | monitorPoll (r : Option ℚ)

/-- One event of the scenario lifecycle.  `monitor_scenario_status` sets the
monitor polling; `stop()` clears only the `LoadGenerator` loops; a monitor
poll that observes `scenario_collapsed` fires once, erroring `_maintained`
with `RequestRateTooLow` carrying the observed rate. -/
def stepScenario (request_rate : ℚ) (s : ScenarioState) :
    ScenarioEvent → ScenarioState
  | ScenarioEvent.establish => { s with monitor_running := true }
  | ScenarioEvent.stopScenario => { s with load_running := false }
  | ScenarioEvent.monitorPoll r =>
    if s.monitor_running && scenario_collapsed r request_rate then
      { s with monitor_running := false,
               maintained := deferredErrback s.maintained (ScenarioError.rateTooLow r) }
    else s

/-- State right after `__init__` and `start()`: loops running, the monitor
not yet launched, `_maintained` pending. -/
def scenarioAfterStart : ScenarioState :=
  { load_running := true, monitor_running := false, maintained := none }

/-- A sequence of lifecycle events applied after `start()`. -/
def runScenario (request_rate : ℚ) (es : List ScenarioEvent) : ScenarioState :=
  es.foldl (stepScenario request_rate) scenarioAfterStart

lemma stepScenario_maintained_cases (rr : ℚ) (s : ScenarioState) (e : ScenarioEvent) :
    (stepScenario rr s e).maintained = s.maintained ∨
    (s.maintained = none ∧ ∃ r, (stepScenario rr s e).maintained
        = some (Except.error (ScenarioError.rateTooLow r))) := by
  cases e with
  | establish => left; rfl
  | stopScenario => left; rfl
  | monitorPoll r =>
    simp only [stepScenario]
    by_cases h : (s.monitor_running && scenario_collapsed r rr) = true
    · rw [if_pos h]
      cases hm : s.maintained with
      | none => right; exact ⟨rfl, r, by simp [deferredErrback, hm]⟩
      | some x => left; simp [deferredErrback, hm]
    · rw [if_neg h]
      left; rfl

lemma runScenario_aux_maintained (rr : ℚ) (es : List ScenarioEvent) :
    ∀ s : ScenarioState,
      (s.maintained = none ∨
        ∃ r, s.maintained = some (Except.error (ScenarioError.rateTooLow r))) →
      ((es.foldl (stepScenario rr) s).maintained = none ∨
        ∃ r, (es.foldl (stepScenario rr) s).maintained
            = some (Except.error (ScenarioError.rateTooLow r))) := by
  induction es with
  | nil => intro s hs; exact hs
  | cons e rest ih =>
    intro s hs
    apply ih
    rcases stepScenario_maintained_cases rr s e with h | ⟨_, r, h⟩
    · rw [h]; exact hs
    · right; exact ⟨r, h⟩

/-- Claim C7: `maintained()` hands out the single `_maintained` deferred
created at construction (modelled as the one `maintained` field of the
scenario state, which no event replaces), and under every event sequence
that deferred is either still pending or settled with a
`RequestRateTooLow` failure carrying the observed rate; it never settles
with a success, and once settled it never changes again. -/
theorem c7_maintained_pending_or_rate_too_low (request_rate : ℚ)
    (es : List ScenarioEvent) :
    ((runScenario request_rate es).maintained = none ∨
      ∃ r, (runScenario request_rate es).maintained
          = some (Except.error (ScenarioError.rateTooLow r))) ∧
    (∀ (s : ScenarioState) (e : ScenarioEvent), s.maintained ≠ none →
      (stepScenario request_rate s e).maintained = s.maintained) := by
  constructor
  · exact runScenario_aux_maintained request_rate es scenarioAfterStart (Or.inl rfl)
  · intro s e hne
    rcases stepScenario_maintained_cases request_rate s e with h | ⟨hnone, _⟩
    · exact h
    · exact absurd hnone hne

/-- Witness for C7 at concrete inputs: a trace that collapses after
establishment leaves `_maintained` failed with `RequestRateTooLow`, and a
step on an already-settled deferred leaves it unchanged. -/
theorem c7_maintained_pending_or_rate_too_low_witness :
    ((runScenario 10 [ScenarioEvent.establish, ScenarioEvent.monitorPoll (some 4)]).maintained
        = none ∨
      ∃ r, (runScenario 10 [ScenarioEvent.establish,
            ScenarioEvent.monitorPoll (some 4)]).maintained
          = some (Except.error (ScenarioError.rateTooLow r))) ∧
    (stepScenario 10
        { load_running := false, monitor_running := true,
          maintained := some (Except.error ScenarioError.cancelled) }
        ScenarioEvent.establish).maintained
      = some (Except.error ScenarioError.cancelled) := by
  constructor
  · exact (c7_maintained_pending_or_rate_too_low 10
      [ScenarioEvent.establish, ScenarioEvent.monitorPoll (some 4)]).1
  · exact (c7_maintained_pending_or_rate_too_low 10 []).2
      { load_running := false, monitor_running := true,
        maintained := some (Except.error ScenarioError.cancelled) }
      ScenarioEvent.establish (fun h => Option.noConfusion h)

/-- Claim C6 concerns a code bug: `stop()` tears down only the
`LoadGenerator` loops; the collapse monitor launched on establishment is
stored nowhere and is not cancelled, so after `stop()` it is still polling
(first conjunct) and a later poll that observes a collapsed rate — which is
inevitable once the load loops are gone — still errbacks `_maintained`
(second conjunct), contradicting the claim that the monitor never fires
after `stop()`. -/
theorem c6_monitor_survives_stop_bug :
    (runScenario 10 [ScenarioEvent.establish, ScenarioEvent.stopScenario]).monitor_running
        = true ∧
    (runScenario 10 [ScenarioEvent.establish, ScenarioEvent.stopScenario,
        ScenarioEvent.monitorPoll (some 0)]).maintained
      = some (Except.error (ScenarioError.rateTooLow (some 0))) := by
  constructor
  · rfl
  · rfl

/-! ## Certificates (`flocker/provision/_ca.py`, C10)

Paths are modelled as `List Char`; the file system as the list of existing
file paths.  `FilePath.child` appends a path separator and the name;
`FilePath.globChildren` returns the existing children of the directory whose
names match the glob pattern (`*` any run, `?` one character);
`path.exists()` is membership in the file system. -/

/-- Glob matching with `*` (any run of characters, possibly empty) and `?`
(exactly one character); other pattern characters match themselves. -/
def globMatch : List Char → List Char → Bool
  | [], s => s.isEmpty
  | p :: ps, s =>
    if p = '*' then
      (List.range (s.length + 1)).any (fun i => globMatch ps (s.drop i))
    else
      match s with
      | [] => false
      | c :: cs => (p == '?' || p == c) && globMatch ps cs

/-- `directory.child(name)`. -/
def child (dir name : List Char) : List Char := dir ++ '/' :: name

/-- `directory.globChildren(pattern)`: existing paths directly under `dir`
whose name matches `pattern`. -/
def globChildren (fs : List (List Char)) (dir pat : List Char) : List (List Char) :=
  fs.filter (fun p =>
    decide (p.take (dir.length + 1) = dir ++ ['/']) &&
    !(p.drop (dir.length + 1)).contains '/' &&
    globMatch pat (p.drop (dir.length + 1)))

/-- Python exceptions raised by `_ca.py` constructors: `RuntimeError("{} does
not exist")` carrying the offending path, and `IndexError` from `[0]` on an
empty glob result. -/
inductive PyError where
  | runtimeError (path : List Char)
  | indexError
deriving DecidableEq, Repr

/-- The `CertAndKey` value: paths to a certificate and its key. -/
structure CertAndKey where
  certificate : List Char
  key : List Char
deriving DecidableEq, Repr

/-- `CertAndKey.__init__`: `for path in (certificate, key): if not
path.exists(): raise RuntimeError(...)`, then store both paths. -/
def CertAndKey.create (fs : List (List Char)) (certificate key : List Char) :
    Except PyError CertAndKey :=
  if certificate ∈ fs then
    if key ∈ fs then Except.ok { certificate := certificate, key := key }
    else Except.error (PyError.runtimeError key)
  else Except.error (PyError.runtimeError certificate)

/-- The `Certificates` value: cluster, control and user pairs plus the node
pairs. -/
structure Certificates where
  cluster : CertAndKey
  control : CertAndKey
  user : CertAndKey
  nodes : List CertAndKey
deriving DecidableEq, Repr

/-- Python `list[0]`: `IndexError` on an empty list. -/
def pyIndexZero {α : Type} : List α → Except PyError α
  | [] => Except.error PyError.indexError
  | a :: _ => Except.ok a

/-- The node loop of `Certificates.__init__`: for each globbed `*.crt`
child, pair it with the sibling `child.path[:-3] + "key"` through
`CertAndKey`; the first exception aborts the construction. -/
def buildNodes (fs : List (List Char)) :
    List (List Char) → Except PyError (List CertAndKey)
  | [] => Except.ok []
  | c :: rest =>
    match CertAndKey.create fs c (c.take (c.length - 3) ++ "key".toList) with
    | Except.error e => Except.error e
    | Except.ok ck =>
      match buildNodes fs rest with
      | Except.error e => Except.error e
      | Except.ok cks => Except.ok (ck :: cks)

/-- `Certificates.__init__(directory)`: build `cluster`, `control` (from the
first `control-*.crt` / `control-*.key` glob hits), `user`, and the node
pairs, in source order; any exception propagates. -/
def Certificates.create (fs : List (List Char)) (directory : List Char) :
    Except PyError Certificates :=
  match CertAndKey.create fs (child directory "cluster.crt".toList)
      (child directory "cluster.key".toList) with
  | Except.error e => Except.error e
  | Except.ok cluster =>
    match pyIndexZero (globChildren fs directory "control-*.crt".toList) with
    | Except.error e => Except.error e
    | Except.ok controlCrt =>
      match pyIndexZero (globChildren fs directory "control-*.key".toList) with
      | Except.error e => Except.error e
      | Except.ok controlKey =>
        match CertAndKey.create fs controlCrt controlKey with
        | Except.error e => Except.error e
        | Except.ok control =>
          match CertAndKey.create fs (child directory "allison.crt".toList)
              (child directory "allison.key".toList) with
          | Except.error e => Except.error e
          | Except.ok user =>
            match buildNodes fs
                (globChildren fs directory "????????-????-*.crt".toList) with
            | Except.error e => Except.error e
            | Except.ok nodes =>
              Except.ok { cluster := cluster, control := control,
                          user := user, nodes := nodes }

lemma CertAndKey.create_ok (fs : List (List Char)) (c k : List Char)
    (ck : CertAndKey) (h : CertAndKey.create fs c k = Except.ok ck) :
    ck.certificate ∈ fs ∧ ck.key ∈ fs := by
  unfold CertAndKey.create at h
  by_cases hc : c ∈ fs
  · rw [if_pos hc] at h
    by_cases hk : k ∈ fs
    · rw [if_pos hk] at h
      injection h with h'
      rw [← h']
      exact ⟨hc, hk⟩
    · rw [if_neg hk] at h
      exact Except.noConfusion h
  · rw [if_neg hc] at h
    exact Except.noConfusion h

lemma buildNodes_ok (fs : List (List Char)) :
    ∀ (l : List (List Char)) (cks : List CertAndKey),
      buildNodes fs l = Except.ok cks →
      ∀ ck ∈ cks, ck.certificate ∈ fs ∧ ck.key ∈ fs := by
  intro l
  induction l with
  | nil =>
    intro cks h ck hck
    unfold buildNodes at h
    injection h with h'
    rw [← h'] at hck
    exact absurd hck (List.not_mem_nil ck)
  | cons c rest ih =>
    intro cks h ck hck
    unfold buildNodes at h
    split at h
    · exact Except.noConfusion h
    · rename_i ck0 h1
      split at h
      · exact Except.noConfusion h
      · rename_i cks0 h2
        injection h with h'
        rw [← h'] at hck
        rcases List.mem_cons.mp hck with hck0 | hck0
        · rw [hck0]
          exact CertAndKey.create_ok fs _ _ _ h1
        · exact ih cks0 h2 ck hck0

/-- Claim C10: constructing a `CertAndKey` raises `RuntimeError` whenever
the certificate path or the key path does not exist, and consequently every
successfully constructed `Certificates` refers only to certificate and key
paths that exist on the file system. -/
theorem c10_certificates_refer_to_existing_files (fs : List (List Char)) :
    (∀ c k : List Char, c ∉ fs ∨ k ∉ fs →
      ∃ p, CertAndKey.create fs c k = Except.error (PyError.runtimeError p)) ∧
    (∀ (dir : List Char) (certs : Certificates),
      Certificates.create fs dir = Except.ok certs →
      (certs.cluster.certificate ∈ fs ∧ certs.cluster.key ∈ fs) ∧
      (certs.control.certificate ∈ fs ∧ certs.control.key ∈ fs) ∧
      (certs.user.certificate ∈ fs ∧ certs.user.key ∈ fs) ∧
      (∀ ck ∈ certs.nodes, ck.certificate ∈ fs ∧ ck.key ∈ fs)) := by
  constructor
  · intro c k hno
    unfold CertAndKey.create
    by_cases hc : c ∈ fs
    · have hk : k ∉ fs := by
        rcases hno with hno | hno
        · exact absurd hc hno
        · exact hno
      exact ⟨k, by rw [if_pos hc, if_neg hk]⟩
    · exact ⟨c, by rw [if_neg hc]⟩
  · intro dir certs h
    unfold Certificates.create at h
    split at h
    · exact Except.noConfusion h
    · rename_i cluster h1
      split at h
      · exact Except.noConfusion h
      · rename_i controlCrt h2
        split at h
        · exact Except.noConfusion h
        · rename_i controlKey h3
          split at h
          · exact Except.noConfusion h
          · rename_i control h4
            split at h
            · exact Except.noConfusion h
            · rename_i user h5
              split at h
              · exact Except.noConfusion h
              · rename_i nodes h6
                injection h with h'
                rw [← h']
                exact ⟨CertAndKey.create_ok fs _ _ _ h1,
                       CertAndKey.create_ok fs _ _ _ h4,
                       CertAndKey.create_ok fs _ _ _ h5,
                       buildNodes_ok fs _ _ h6⟩

/-- A concrete file system containing a full certificate directory `d`. -/
def demoFs : List (List Char) :=
  ["d/cluster.crt".toList, "d/cluster.key".toList,
   "d/control-1.crt".toList, "d/control-1.key".toList,
   "d/allison.crt".toList, "d/allison.key".toList]

/-- The `Certificates` value built from `demoFs`. -/
def demoCerts : Certificates :=
  { cluster := { certificate := "d/cluster.crt".toList, key := "d/cluster.key".toList },
    control := { certificate := "d/control-1.crt".toList, key := "d/control-1.key".toList },
    user := { certificate := "d/allison.crt".toList, key := "d/allison.key".toList },
    nodes := [] }

/-- Witness for C10: a missing certificate path raises `RuntimeError`, and a
successful construction over `demoFs` refers only to existing files. -/
theorem c10_certificates_refer_to_existing_files_witness :
    (∃ p, CertAndKey.create demoFs "missing.crt".toList "d/cluster.key".toList
        = Except.error (PyError.runtimeError p)) ∧
    ((demoCerts.cluster.certificate ∈ demoFs ∧ demoCerts.cluster.key ∈ demoFs) ∧
     (demoCerts.control.certificate ∈ demoFs ∧ demoCerts.control.key ∈ demoFs) ∧
     (demoCerts.user.certificate ∈ demoFs ∧ demoCerts.user.key ∈ demoFs) ∧
     (∀ ck ∈ demoCerts.nodes, ck.certificate ∈ demoFs ∧ ck.key ∈ demoFs)) := by
  constructor
  · exact (c10_certificates_refer_to_existing_files demoFs).1
      "missing.crt".toList "d/cluster.key".toList (Or.inl (by decide))
  · exact (c10_certificates_refer_to_existing_files demoFs).2
      "d".toList demoCerts rfl
